import Mathlib

/-!
Verification development for the authentication switcher module
(`src/auth/AuthSwitcher.js`): account rotation, failure tracking and
usage-based switching.

The JavaScript class `AuthSwitcher` is shallowly embedded as pure Lean
functions over an explicit state record.  External collaborators
(`authSource`, `browserManager`) are modelled as an environment record of
response functions; `Option String` encodes `success | failure(message)`
for the asynchronous activation calls (`none` = resolved, `some msg` =
rejected with an error whose `.message` is `msg`).  Thrown JS errors are
modelled with `Except String`; a `try/finally` block becomes an explicit
post-composition on every exit path.  Activation calls made to the
session collaborator are recorded in an `attempts` trace, and the fatal
all-accounts-failed diagnostic log (which reports the ordered list of
failed accounts together with the total account count) is recorded in a
`fatalDiag` field.  Purely informational log lines are elided.
-/

namespace AuthSwitcher

/-- Result object returned by the switching operations, mirroring the JS
object literals `{ success, newIndex?, failedAccounts?, finalAttempt?,
reason? }`. Absent JS fields are `none`. -/
structure SwitchResult where
  success : Bool
  newIndex : Option Int := none
  failedAccounts : Option (List Int) := none
  finalAttempt : Option Bool := none
  reason : Option String := none
deriving DecidableEq, Repr

/-- Mutable instance state of the `AuthSwitcher` class.  `currentAuthIndex`
is the delegated accessor into the browser manager; the value `0` is the
unset sentinel (see the source comment `If no current account
(currentAuthIndex=0)` and the reset `this.currentAuthIndex = 0`). -/
structure AuthSwitcherState where
  failureCount : Nat
  usageCount : Nat
  isSystemBusy : Bool
  currentAuthIndex : Int
deriving DecidableEq, Repr

/-- Behaviour of the external collaborators for one decision cycle:
`authSource.availableIndices`, and the two activation calls of the
browser manager.  `none` models a resolved promise, `some msg` a
rejection with error message `msg`. -/
structure Env where
  availableIndices : List Int
  launchOrSwitchContext : Int → Option String
  switchAccount : Int → Option String

/-- Failure-policy configuration (`this.config`). -/
structure Config where
  failureThreshold : Nat
  immediateSwitchStatusCodes : List Int
  switchOnUses : Nat

/-- One activation call made to the session collaborator. -/
inductive Attempt where
  | restart (idx : Int)
  | switchAcc (idx : Int)
deriving DecidableEq, Repr

/-- Outcome of one switching operation: the returned value or thrown error
(`result`), the final instance state, the ordered activation calls made,
and the payload of the fatal all-accounts-failed diagnostic (total account
count and ordered failed-accounts list) when that line is reached. -/
structure OpOutcome where
  result : Except String SwitchResult
  state : AuthSwitcherState
  attempts : List Attempt
  fatalDiag : Option (Nat × List Int)
deriving Repr

instance : DecidableEq (Except String SwitchResult)
  | Except.ok a, Except.ok b =>
      if h : a = b then isTrue (by rw [h]) else isFalse (fun hh => h (Except.ok.inj hh))
  | Except.ok _, Except.error _ => isFalse (fun hh => Except.noConfusion hh)
  | Except.error _, Except.ok _ => isFalse (fun hh => Except.noConfusion hh)
  | Except.error a, Except.error b =>
      if h : a = b then isTrue (by rw [h]) else isFalse (fun hh => h (Except.error.inj hh))

/-- Does the character list `p` lead (start) the character list `c`? -/
def leadsChars : List Char → List Char → Bool
  | [], _ => true
  | _ :: _, [] => false
  | p :: ps, c :: cs => (p == c) && leadsChars ps cs

/-- Substring search on character lists, mirroring JS `String.includes`. -/
def includesSubstrChars (pat : List Char) : List Char → Bool
  | [] => leadsChars pat []
  | c :: cs => leadsChars pat (c :: cs) || includesSubstrChars pat cs

/-- JS `s.includes(pat)`. -/
def includesSubstr (s pat : String) : Bool :=
  includesSubstrChars pat.data s.data

/-- JS `Array.prototype.indexOf`: index of the first occurrence of `x`,
`-1` if absent. -/
def jsIndexOf : List Int → Int → Int
  | [], _ => -1
  | a :: as, x =>
      if a = x then 0
      else if jsIndexOf as x = -1 then -1 else jsIndexOf as x + 1

/-- Source `resetCounters()` (lines 275-278). -/
def resetCounters (s : AuthSwitcherState) : AuthSwitcherState :=
  { s with failureCount := 0, usageCount := 0 }

/-- Source `this.failureCount++` (line 209). -/
def bumpFailure (s : AuthSwitcherState) : AuthSwitcherState :=
  { s with failureCount := s.failureCount + 1 }

/-- Modelled from the spec: the browser manager (`browserManager`, a
repository component not present under `src/`) performs `switchAccount`;
per spec section 6, on success the side effect is that the given index
becomes the externally active session, which the switcher observes through
its delegated `currentAuthIndex` accessor. -/
def applySwitchSuccess (s : AuthSwitcherState) (idx : Int) : AuthSwitcherState :=
  { s with currentAuthIndex := idx }

/-- Source `getNextAuthIndex()` (lines 32-47): pure candidate selection.
Returns `none` for JS `null` (empty candidate list). -/
def getNextAuthIndex (available : List Int) (currentAuthIndex : Int) : Option Int :=
  if available.length = 0 then none
  else if jsIndexOf available currentAuthIndex = -1 then
    some (available.getD 0 0)
  else
    some (available.getD (((jsIndexOf available currentAuthIndex).toNat + 1) % available.length) 0)

/-- Source `incrementUsageCount()` (lines 266-269). -/
def incrementUsageCount (s : AuthSwitcherState) : AuthSwitcherState × Nat :=
  ({ s with usageCount := s.usageCount + 1 }, s.usageCount + 1)

/-- Source `shouldSwitchByUsage()` (lines 271-273). -/
def shouldSwitchByUsage (cfg : Config) (s : AuthSwitcherState) : Bool :=
  decide (0 < cfg.switchOnUses) && decide (cfg.switchOnUses ≤ s.usageCount)

/-- JS `currentIndexInArray !== -1` (line 90). -/
def hasCurrent (env : Env) (s : AuthSwitcherState) : Bool :=
  jsIndexOf env.availableIndices s.currentAuthIndex != -1

/-- JS `startIndex = hasCurrentAccount ? currentIndexInArray : 0` (line 91). -/
def startIndexOf (env : Env) (s : AuthSwitcherState) : Nat :=
  if hasCurrent env s then (jsIndexOf env.availableIndices s.currentAuthIndex).toNat else 0

/-- JS `originalStartAccount = hasCurrentAccount ? available[startIndex] : null`
(line 92). -/
def originalStartAccount (env : Env) (s : AuthSwitcherState) : Option Int :=
  if hasCurrent env s then some (env.availableIndices.getD (startIndexOf env s) 0) else none

/-- JS `startOffset = hasCurrentAccount ? 1 : 0` (line 108). -/
def startOffsetOf (env : Env) (s : AuthSwitcherState) : Nat :=
  if hasCurrent env s then 1 else 0

/-- JS `tryCount = hasCurrentAccount ? available.length - 1 : available.length`
(line 109). -/
def tryCountOf (env : Env) (s : AuthSwitcherState) : Nat :=
  if hasCurrent env s then env.availableIndices.length - 1 else env.availableIndices.length

/-- The `for` loop of lines 111-139: `i` runs from `startOffset` while
`remaining` counts down from `tryCount`; each iteration attempts
`available[(startIndex + i) % available.length]`.  Returns
`(.ok (newIndex, failedSoFar))` at the first successful attempt or
`(.error failedAccounts)` after exhaustion, together with the ordered list
of account indices attempted. -/
def multiTryLoop (env : Env) (available : List Int) (startIndex : Nat) :
    Nat → Nat → List Int → Except (List Int) (Int × List Int) × List Int
  | _, 0, failed => (Except.error failed, [])
  | i, r + 1, failed =>
      match env.switchAccount (available.getD ((startIndex + i) % available.length) 0) with
      | none => (Except.ok (available.getD ((startIndex + i) % available.length) 0, failed),
                 [available.getD ((startIndex + i) % available.length) 0])
      | some _ =>
          let rest := multiTryLoop env available startIndex (i + 1) r
            (failed ++ [available.getD ((startIndex + i) % available.length) 0])
          (rest.1, available.getD ((startIndex + i) % available.length) 0 :: rest.2)

/-- The same loop expressed over the explicit list of accounts to try, used
to reason about `multiTryLoop`. -/
def scanTrials (env : Env) : List Int → List Int → Except (List Int) (Int × List Int) × List Int
  | [], failed => (Except.error failed, [])
  | a :: as, failed =>
      match env.switchAccount a with
      | none => (Except.ok (a, failed), [a])
      | some _ =>
          let rest := scanTrials env as (failed ++ [a])
          (rest.1, a :: rest.2)

/-- The accounts visited by the loop: positions `(startIndex + i + k) %
available.length` for `k < r`. -/
def plannedTrials (available : List Int) (startIndex : Nat) : Nat → Nat → List Int
  | _, 0 => []
  | i, r + 1 =>
      available.getD ((startIndex + i) % available.length) 0 ::
        plannedTrials available startIndex (i + 1) r

/-- The trial order of the multi-account walk when the current index is a
member: forward from the position of the current index, wrapping around,
skipping the original. -/
def trialOrder (available : List Int) (currentAuthIndex : Int) : List Int :=
  plannedTrials available (jsIndexOf available currentAuthIndex).toNat 1 (available.length - 1)

/-- Message of the error thrown at JS line 175. -/
def allFailedMessage (n : Nat) : String :=
  "All " ++ toString n ++ " available accounts failed to initialize (including final retry)."

/-- Lines 170-175: log the fatal diagnostic (total count plus ordered
failed-accounts list), reset `currentAuthIndex` to the unset sentinel `0`,
and throw. -/
def allFailedOutcome (env : Env) (failed : List Int) (s : AuthSwitcherState)
    (attempted : List Int) : OpOutcome :=
  { result := Except.error (allFailedMessage env.availableIndices.length)
    state := { s with currentAuthIndex := 0 }
    attempts := attempted.map Attempt.switchAcc
    fatalDiag := some (env.availableIndices.length, failed) }

/-- Lines 140-175: what happens after the trial loop finishes.  The JS
guard `hasCurrentAccount && originalStartAccount` uses truthiness, so an
original account index equal to `0` skips the final attempt. -/
def multiAfterLoop (env : Env) (s : AuthSwitcherState) :
    Except (List Int) (Int × List Int) × List Int → OpOutcome
  | (Except.ok (accountIndex, failedAccounts), attempted) =>
      { result := Except.ok { failedAccounts := some failedAccounts,
                              newIndex := some accountIndex, success := true }
        state := applySwitchSuccess (resetCounters s) accountIndex
        attempts := attempted.map Attempt.switchAcc
        fatalDiag := none }
  | (Except.error failedAccounts, attempted) =>
      match originalStartAccount env s with
      | some orig =>
          if orig = 0 then allFailedOutcome env failedAccounts s attempted
          else
            match env.switchAccount orig with
            | none =>
                { result := Except.ok { failedAccounts := some failedAccounts,
                                        finalAttempt := some true,
                                        newIndex := some orig, success := true }
                  state := applySwitchSuccess (resetCounters s) orig
                  attempts := (attempted ++ [orig]).map Attempt.switchAcc
                  fatalDiag := none }
            | some _ =>
                allFailedOutcome env (failedAccounts ++ [orig]) s (attempted ++ [orig])
      | none => allFailedOutcome env failedAccounts s attempted

/-- Lines 88-175: the multi-account branch. -/
def multiAccountBranch (env : Env) (s : AuthSwitcherState) : OpOutcome :=
  multiAfterLoop env s
    (multiTryLoop env env.availableIndices (startIndexOf env s) (startOffsetOf env s)
      (tryCountOf env s) [])

/-- Lines 64-86: the single-account branch (in-place restart). -/
def singleAccountBranch (env : Env) (s : AuthSwitcherState) : OpOutcome :=
  match env.launchOrSwitchContext (env.availableIndices.getD 0 0) with
  | none =>
      { result := Except.ok { newIndex := some (env.availableIndices.getD 0 0), success := true }
        state := resetCounters s
        attempts := [Attempt.restart (env.availableIndices.getD 0 0)]
        fatalDiag := none }
  | some e =>
      { result := Except.error e
        state := s
        attempts := [Attempt.restart (env.availableIndices.getD 0 0)]
        fatalDiag := none }

/-- Body of the `try` block of `switchToNextAuth` (lines 63-175). -/
def switchToNextAuthBody (env : Env) (s : AuthSwitcherState) : OpOutcome :=
  if env.availableIndices.length = 1 then singleAccountBranch env s
  else multiAccountBranch env s

/-- The `finally` block (lines 176-178): clear the busy flag on every exit
path. -/
def clearBusy (o : OpOutcome) : OpOutcome :=
  { o with state := { o.state with isSystemBusy := false } }

/-- Source `switchToNextAuth()` (lines 49-179): empty-source check, busy
gate, then the guarded body with the busy flag held. -/
def switchToNextAuth (env : Env) (s : AuthSwitcherState) : OpOutcome :=
  if env.availableIndices.length = 0 then
    { result := Except.error "No available authentication sources, cannot switch."
      state := s, attempts := [], fatalDiag := none }
  else if s.isSystemBusy then
    { result := Except.ok { success := false, reason := some "Switch already in progress." }
      state := s, attempts := [], fatalDiag := none }
  else
    clearBusy (switchToNextAuthBody env { s with isSystemBusy := true })

/-- Structured refusal message of JS line 188 for an invalid target. -/
def invalidTargetMessage (targetIndex : Int) : String :=
  "Switch failed: Account #" ++ toString targetIndex ++ " invalid or does not exist."

/-- Source `switchToSpecificAuth(targetIndex)` (lines 181-206): busy gate
first, then target validity, then a single activation attempt with the
busy flag held and cleared on both exits. -/
def switchToSpecificAuth (env : Env) (targetIndex : Int) (s : AuthSwitcherState) : OpOutcome :=
  if s.isSystemBusy then
    { result := Except.ok { success := false, reason := some "Switch already in progress." }
      state := s, attempts := [], fatalDiag := none }
  else if env.availableIndices.contains targetIndex = false then
    { result := Except.ok { success := false, reason := some (invalidTargetMessage targetIndex) }
      state := s, attempts := [], fatalDiag := none }
  else
    match env.switchAccount targetIndex with
    | none =>
        { result := Except.ok { newIndex := some targetIndex, success := true }
          state := { (applySwitchSuccess (resetCounters s) targetIndex) with isSystemBusy := false }
          attempts := [Attempt.switchAcc targetIndex]
          fatalDiag := none }
    | some e =>
        { result := Except.error e
          state := { s with isSystemBusy := false }
          attempts := [Attempt.switchAcc targetIndex]
          fatalDiag := none }

/-- Lines 220-224: the switch trigger condition, evaluated after the
failure-count increment. -/
def triggerCond (cfg : Config) (status : Int) (s1 : AuthSwitcherState) : Bool :=
  cfg.immediateSwitchStatusCodes.contains status ||
    (decide (0 < cfg.failureThreshold) && decide (cfg.failureThreshold ≤ s1.failureCount))

/-- Lines 248-258: classification of a caught switching error by substring
matching on its message, producing the user-facing notification text. -/
def classifyErrorMessage (msg : String) (currentAuthIndex : Int) : String :=
  if includesSubstr msg "Only one account is available" then
    "❌ Switch failed: Only one account available."
  else if includesSubstr msg "Fallback failed reason" then
    "❌ Fatal error: Both automatic switching and emergency fallback failed, service may be interrupted, please check logs!"
  else if includesSubstr msg "Switching to account" then
    "⚠️ Automatic switch failed: Automatically fell back to account #" ++
      toString currentAuthIndex ++ ", please check if target account has issues."
  else
    "❌ Fatal error: Unknown switching error occurred: " ++ msg

/-- A message passed to the optional `sendErrorCallback` (`if
(sendErrorCallback) sendErrorCallback(m)`). -/
def sendIf (cbPresent : Bool) (m : String) : List String :=
  if cbPresent then [m] else []

/-- Lines 235-262: the `try/catch` around the delegated
`switchToNextAuth()` call.  Returns the state after the block and the
notifications sent.  The `catch` converts every thrown error into a
notification; the `Only one account is available` match additionally
resets the failure counter. -/
def handleDelegate (env : Env) (cbPresent : Bool) (s1 : AuthSwitcherState) :
    AuthSwitcherState × List String :=
  match (switchToNextAuth env s1).result with
  | Except.ok r =>
      if r.success = false then
        ((switchToNextAuth env s1).state,
         sendIf cbPresent ("⚠️ Account switch skipped: " ++ r.reason.getD ""))
      else
        ((switchToNextAuth env s1).state,
         sendIf cbPresent ("🔄 Target account invalid, automatically fell back to account #" ++
           toString (switchToNextAuth env s1).state.currentAuthIndex ++ "."))
  | Except.error e =>
      (if includesSubstr e "Only one account is available" then
         { (switchToNextAuth env s1).state with failureCount := 0 }
       else (switchToNextAuth env s1).state,
       sendIf cbPresent (classifyErrorMessage e (switchToNextAuth env s1).state.currentAuthIndex))

/-- Outcome of `handleRequestFailureAndSwitch`: final state, notifications
sent through the callback, and whether the call delegated to
`switchToNextAuth` (reached line 236). -/
structure HandleOutcome where
  state : AuthSwitcherState
  sent : List String
  delegated : Bool
deriving DecidableEq, Repr

/-- Source `handleRequestFailureAndSwitch(errorDetails, sendErrorCallback)`
(lines 208-264): increment the failure counter, evaluate the two trigger
conditions, and when either holds run the orchestration with every error
intercepted.  The embedding is a total function: no error propagates to
the caller. -/
def handleRequestFailureAndSwitch (env : Env) (cfg : Config) (status : Int)
    (cbPresent : Bool) (s : AuthSwitcherState) : HandleOutcome :=
  if triggerCond cfg status (bumpFailure s) then
    { state := (handleDelegate env cbPresent (bumpFailure s)).1
      sent := (handleDelegate env cbPresent (bumpFailure s)).2
      delegated := true }
  else
    { state := bumpFailure s, sent := [], delegated := false }

/-- Repeated failure reports with a fixed status: iterate
`handleRequestFailureAndSwitch` and record whether any call delegated. -/
def handleIter (env : Env) (cfg : Config) (status : Int) (cbPresent : Bool) :
    Nat → AuthSwitcherState → AuthSwitcherState × Bool
  | 0, s => (s, false)
  | k + 1, s =>
      ((handleIter env cfg status cbPresent k
          (handleRequestFailureAndSwitch env cfg status cbPresent s).state).1,
       (handleRequestFailureAndSwitch env cfg status cbPresent s).delegated ||
         (handleIter env cfg status cbPresent k
           (handleRequestFailureAndSwitch env cfg status cbPresent s).state).2)

/-- Modelled from the spec: a failure message that "indicates only one
candidate exists" (spec section 4.4).  The producer of the single-account
restart failure is the browser manager, repository code not under `src/`;
the switcher recognises such a failure by this marker substring. -/
def indicatesOnlyOneAccount (msg : String) : Bool :=
  includesSubstr msg "Only one account is available"

/-- Scenario for claim 1: candidates `[1,2,3]`, switching to 2 fails, to 3
succeeds; a restart would also fail. -/
def c1Env : Env :=
  { availableIndices := [1, 2, 3]
    launchOrSwitchContext := fun _ => some "mock restart failure"
    switchAccount := fun a => if a = 3 then none else some "mock switch failure" }

/-- Scenario for claim 1: idle switcher currently on account 1. -/
def c1State : AuthSwitcherState :=
  { failureCount := 2, usageCount := 5, isSystemBusy := false, currentAuthIndex := 1 }

/-- Scenario for claim 2: candidates `[1,2,3]`, every activation fails. -/
def c2Env : Env :=
  { availableIndices := [1, 2, 3]
    launchOrSwitchContext := fun _ => some "mock restart failure"
    switchAccount := fun _ => some "mock switch failure" }

/-- Scenario for claim 2: idle switcher currently on account 1. -/
def c2State : AuthSwitcherState :=
  { failureCount := 2, usageCount := 5, isSystemBusy := false, currentAuthIndex := 1 }

/-- Scenario for the counterexample of claim 3: an empty candidate list. -/
def c3EmptyEnv : Env :=
  { availableIndices := []
    launchOrSwitchContext := fun _ => none
    switchAccount := fun _ => none }

/-- Scenario for claim 3: a busy switcher. -/
def c3BusyState : AuthSwitcherState :=
  { failureCount := 0, usageCount := 0, isSystemBusy := true, currentAuthIndex := 1 }

/-- Scenario for the witness of claim 3: a non-empty candidate list. -/
def c3Env : Env :=
  { availableIndices := [1, 2]
    launchOrSwitchContext := fun _ => none
    switchAccount := fun _ => none }

/-- Scenario for the witness of claim 3: an idle switcher. -/
def c3IdleState : AuthSwitcherState :=
  { failureCount := 0, usageCount := 0, isSystemBusy := false, currentAuthIndex := 1 }

/-- Scenario for claim 4: collaborator behaviour (irrelevant to the policy
evaluation itself). -/
def c4Env : Env :=
  { availableIndices := [1, 2]
    launchOrSwitchContext := fun _ => none
    switchAccount := fun _ => none }

/-- Scenario for claim 4: threshold disabled, one immediate status code. -/
def c4Cfg : Config :=
  { failureThreshold := 0, immediateSwitchStatusCodes := [429], switchOnUses := 0 }

/-- Scenario for claim 4: an idle switcher with some accumulated failures. -/
def c4State : AuthSwitcherState :=
  { failureCount := 7, usageCount := 1, isSystemBusy := false, currentAuthIndex := 1 }

/-- Scenario for claim 5: a single account whose restart is rejected with
message `boom`. -/
def c5Env : Env :=
  { availableIndices := [7]
    launchOrSwitchContext := fun _ => some "boom"
    switchAccount := fun _ => none }

/-- Scenario for claim 5: status 429 triggers an immediate switch. -/
def c5Cfg : Config :=
  { failureThreshold := 3, immediateSwitchStatusCodes := [429], switchOnUses := 0 }

/-- Scenario for claim 5: idle switcher on account 7. -/
def c5State : AuthSwitcherState :=
  { failureCount := 0, usageCount := 0, isSystemBusy := false, currentAuthIndex := 7 }

/-- Scenario for claim 6: candidates `[1,2,3]`. -/
def c6Env : Env :=
  { availableIndices := [1, 2, 3]
    launchOrSwitchContext := fun _ => none
    switchAccount := fun _ => none }

/-- Scenario for the counterexample of claim 6: a busy switcher. -/
def c6BusyState : AuthSwitcherState :=
  { failureCount := 0, usageCount := 0, isSystemBusy := true, currentAuthIndex := 1 }

/-- Scenario for the witness of claim 6: an idle switcher. -/
def c6IdleState : AuthSwitcherState :=
  { failureCount := 0, usageCount := 0, isSystemBusy := false, currentAuthIndex := 1 }

/-- Scenario for claim 7: a single account whose restart fails with a
message indicating that only one account is available. -/
def c7Env : Env :=
  { availableIndices := [7]
    launchOrSwitchContext := fun _ => some "Only one account is available, cannot switch"
    switchAccount := fun _ => none }

/-- Scenario for claim 7: status 401 triggers an immediate switch. -/
def c7Cfg : Config :=
  { failureThreshold := 0, immediateSwitchStatusCodes := [401], switchOnUses := 0 }

/-- Scenario for claim 7: idle switcher on account 7 with accumulated
failures. -/
def c7State : AuthSwitcherState :=
  { failureCount := 5, usageCount := 2, isSystemBusy := false, currentAuthIndex := 7 }

/-- Scenario for claim 9: two accounts, every activation succeeds. -/
def c9Env : Env :=
  { availableIndices := [1, 2]
    launchOrSwitchContext := fun _ => none
    switchAccount := fun _ => none }

/-- Scenario for claim 9: idle switcher with nonzero counters. -/
def c9State : AuthSwitcherState :=
  { failureCount := 3, usageCount := 4, isSystemBusy := false, currentAuthIndex := 1 }

/-- Scenario for claim 10: three accounts, every activation fails. -/
def c10Env : Env :=
  { availableIndices := [1, 2, 3]
    launchOrSwitchContext := fun _ => some "mock restart failure"
    switchAccount := fun _ => some "mock switch failure" }

/-- Scenario for claim 10: threshold 2, no immediate status codes. -/
def c10Cfg : Config :=
  { failureThreshold := 2, immediateSwitchStatusCodes := [], switchOnUses := 0 }

/-- Scenario for claim 10: idle switcher with five accumulated failures. -/
def c10State : AuthSwitcherState :=
  { failureCount := 5, usageCount := 0, isSystemBusy := false, currentAuthIndex := 1 }

lemma getD_mem_of_lt : ∀ (l : List Int) (n : Nat), n < l.length → l.getD n 0 ∈ l := by
  intro l
  induction l with
  | nil => intro n h; simp at h
  | cons a as ih =>
    intro n h
    cases n with
    | zero => simp [List.getD]
    | succ m =>
      have hm : m < as.length := by simpa using h
      simpa [List.getD] using Or.inr (by simpa [List.getD] using ih m hm)

lemma nodup_getD_inj : ∀ (l : List Int), l.Nodup → ∀ (p q : Nat), p < l.length →
    q < l.length → l.getD p 0 = l.getD q 0 → p = q := by
  intro l
  induction l with
  | nil => intro _ p q hp; simp at hp
  | cons a as ih =>
    intro hnd p q hp hq heq
    have hna : a ∉ as := (List.nodup_cons.mp hnd).1
    have hnd' : as.Nodup := (List.nodup_cons.mp hnd).2
    cases p with
    | zero =>
      cases q with
      | zero => rfl
      | succ q' =>
        exfalso
        have hq' : q' < as.length := by simpa using hq
        have : a = as.getD q' 0 := by simpa [List.getD] using heq
        exact hna (this ▸ getD_mem_of_lt as q' hq')
    | succ p' =>
      cases q with
      | zero =>
        exfalso
        have hp' : p' < as.length := by simpa using hp
        have : as.getD p' 0 = a := by simpa [List.getD] using heq
        exact hna (this ▸ getD_mem_of_lt as p' hp')
      | succ q' =>
        have hp' : p' < as.length := by simpa using hp
        have hq' : q' < as.length := by simpa using hq
        have heq' : as.getD p' 0 = as.getD q' 0 := by simpa [List.getD] using heq
        exact congrArg Nat.succ (ih hnd' p' q' hp' hq' heq')

lemma jsIndexOf_of_mem : ∀ (l : List Int) (x : Int), x ∈ l →
    ∃ p : Nat, jsIndexOf l x = (p : Int) ∧ p < l.length ∧ l.getD p 0 = x := by
  intro l
  induction l with
  | nil => intro x hx; simp at hx
  | cons a as ih =>
    intro x hx
    by_cases hax : a = x
    · exact ⟨0, by simp [jsIndexOf, hax], by simp, by simp [List.getD, hax]⟩
    · have hx' : x ∈ as := by
        rcases List.mem_cons.mp hx with h | h
        · exact absurd h.symm hax
        · exact h
      obtain ⟨p, hp1, hp2, hp3⟩ := ih x hx'
      refine ⟨p + 1, ?_, by simpa using Nat.succ_lt_succ hp2, by simpa [List.getD] using hp3⟩
      have hne : jsIndexOf as x ≠ -1 := by
        rw [hp1]; intro hc
        have := Int.natCast_nonneg p
        omega
      simp only [jsIndexOf, if_neg hax, if_neg hne, hp1]
      push_cast
      ring

lemma jsIndexOf_of_not_mem : ∀ (l : List Int) (x : Int), x ∉ l → jsIndexOf l x = -1 := by
  intro l
  induction l with
  | nil => intro x _; simp [jsIndexOf]
  | cons a as ih =>
    intro x hx
    have hax : a ≠ x := fun h => hx (h ▸ List.mem_cons_self a as)
    have h' : x ∉ as := fun h => hx (List.mem_cons_of_mem a h)
    simp [jsIndexOf, hax, ih x h']

lemma jsIndexOf_getD_self (l : List Int) (x : Int) (hx : x ∈ l) :
    l.getD (jsIndexOf l x).toNat 0 = x := by
  obtain ⟨p, hp1, _, hp3⟩ := jsIndexOf_of_mem l x hx
  rw [hp1]
  simpa using hp3

lemma jsIndexOf_of_getD (l : List Int) (hnd : l.Nodup) (p : Nat) (hp : p < l.length)
    (x : Int) (hx : l.getD p 0 = x) : jsIndexOf l x = (p : Int) := by
  have hmem : x ∈ l := hx ▸ getD_mem_of_lt l p hp
  obtain ⟨q, hq1, hq2, hq3⟩ := jsIndexOf_of_mem l x hmem
  have : q = p := nodup_getD_inj l hnd q p hq2 hp (hq3.trans hx.symm)
  rw [hq1, this]

lemma plannedTrials_length (available : List Int) (startIndex : Nat) :
    ∀ (r i : Nat), (plannedTrials available startIndex i r).length = r := by
  intro r
  induction r with
  | zero => intro i; rfl
  | succ n ih => intro i; simp [plannedTrials, ih]

lemma plannedTrials_getD (available : List Int) (startIndex : Nat) :
    ∀ (r i k : Nat), k < r →
      (plannedTrials available startIndex i r).getD k 0 =
        available.getD ((startIndex + i + k) % available.length) 0 := by
  intro r
  induction r with
  | zero => intro i k hk; omega
  | succ n ih =>
    intro i k hk
    cases k with
    | zero => simp [plannedTrials, List.getD]
    | succ m =>
      have hm : m < n := by omega
      have := ih (i + 1) m hm
      simp only [plannedTrials, List.getD_cons_succ]
      rw [this]
      congr 2
      omega

lemma plannedTrials_mem (available : List Int) (startIndex : Nat) :
    ∀ (r i : Nat) (a : Int), a ∈ plannedTrials available startIndex i r →
      ∃ k, k < r ∧ a = available.getD ((startIndex + i + k) % available.length) 0 := by
  intro r
  induction r with
  | zero => intro i a ha; simp [plannedTrials] at ha
  | succ n ih =>
    intro i a ha
    rcases List.mem_cons.mp ha with h | h
    · exact ⟨0, by omega, by simpa using h⟩
    · obtain ⟨k, hk, hk2⟩ := ih (i + 1) a h
      exact ⟨k + 1, by omega, by rw [hk2]; congr 2; omega⟩

lemma multiTryLoop_eq_scan (env : Env) (available : List Int) (startIndex : Nat) :
    ∀ (r i : Nat) (failed : List Int),
      multiTryLoop env available startIndex i r failed =
        scanTrials env (plannedTrials available startIndex i r) failed := by
  intro r
  induction r with
  | zero => intro i failed; rfl
  | succ n ih =>
    intro i failed
    simp only [multiTryLoop, plannedTrials, scanTrials]
    cases env.switchAccount (available.getD ((startIndex + i) % available.length) 0) with
    | none => rfl
    | some e => simp [ih]

lemma scan_all_fail (env : Env) :
    ∀ (order failed : List Int), (∀ a ∈ order, (env.switchAccount a).isSome = true) →
      scanTrials env order failed = (Except.error (failed ++ order), order) := by
  intro order
  induction order with
  | nil => intro failed _; simp [scanTrials]
  | cons a as ih =>
    intro failed hall
    have ha : (env.switchAccount a).isSome = true := hall a (List.mem_cons_self a as)
    rcases hsw : env.switchAccount a with _ | e
    · rw [hsw] at ha; simp at ha
    · have := ih (failed ++ [a]) (fun b hb => hall b (List.mem_cons_of_mem a hb))
      simp [scanTrials, hsw, this]

lemma scan_first_success (env : Env) :
    ∀ (order : List Int) (j : Nat) (failed : List Int), j < order.length →
      (∀ k, k < j → (env.switchAccount (order.getD k 0)).isSome = true) →
      env.switchAccount (order.getD j 0) = none →
      scanTrials env order failed =
        (Except.ok (order.getD j 0, failed ++ order.take j), order.take (j + 1)) := by
  intro order
  induction order with
  | nil => intro j failed hj; simp at hj
  | cons a as ih =>
    intro j failed hj hfail hsucc
    cases j with
    | zero =>
      have ha : env.switchAccount a = none := by simpa [List.getD] using hsucc
      simp [scanTrials, ha, List.getD]
    | succ j' =>
      have ha : (env.switchAccount a).isSome = true := by
        have := hfail 0 (Nat.succ_pos j')
        simpa [List.getD] using this
      rcases hsw : env.switchAccount a with _ | e
      · rw [hsw] at ha; simp at ha
      · have hj' : j' < as.length := by simpa using hj
        have hfail' : ∀ k, k < j' → (env.switchAccount (as.getD k 0)).isSome = true := by
          intro k hk
          have := hfail (k + 1) (by omega)
          simpa [List.getD] using this
        have hsucc' : env.switchAccount (as.getD j' 0) = none := by
          simpa [List.getD] using hsucc
        have := ih j' (failed ++ [a]) hj' hfail' hsucc'
        simp [scanTrials, hsw, this, List.getD]

lemma mod_walk_ne (n p k : Nat) (hp : p < n) (hk : k < n - 1) : (p + 1 + k) % n ≠ p := by
  intro h
  rcases Nat.lt_or_ge (p + 1 + k) n with hlt | hge
  · rw [Nat.mod_eq_of_lt hlt] at h
    omega
  · have h2 : (p + 1 + k) % n = (p + 1 + k - n) % n := Nat.mod_eq_sub_mod hge
    have h3 : p + 1 + k - n < n := by omega
    rw [h2, Nat.mod_eq_of_lt h3] at h
    omega

lemma trialOrder_spec (avail : List Int) (cur : Int) (hmem : cur ∈ avail)
    (hn : 1 < avail.length) :
    (trialOrder avail cur).length = avail.length - 1 ∧
    (∀ k, k < avail.length - 1 →
      (trialOrder avail cur).getD k 0 =
        avail.getD (((jsIndexOf avail cur).toNat + 1 + k) % avail.length) 0) ∧
    (avail.Nodup → cur ∉ trialOrder avail cur) ∧
    (∀ a ∈ trialOrder avail cur, a ∈ avail) := by
  obtain ⟨p, hp1, hp2, hp3⟩ := jsIndexOf_of_mem avail cur hmem
  have hpt : (jsIndexOf avail cur).toNat = p := by rw [hp1]; simp
  have hpos : 0 < avail.length := by omega
  refine ⟨plannedTrials_length avail _ _ _, ?_, ?_, ?_⟩
  · intro k hk
    exact plannedTrials_getD avail _ _ 1 k hk
  · intro hnd hcur
    obtain ⟨k, hk, hk2⟩ := plannedTrials_mem avail _ _ 1 cur hcur
    rw [hpt] at hk2
    have hkmod : (p + 1 + k) % avail.length < avail.length := Nat.mod_lt _ hpos
    have heq : avail.getD ((p + 1 + k) % avail.length) 0 = avail.getD p 0 := by
      rw [← hk2, hp3]
    have := nodup_getD_inj avail hnd _ _ hkmod hp2 heq
    exact mod_walk_ne avail.length p k hp2 hk this
  · intro a ha
    obtain ⟨k, _, hk2⟩ := plannedTrials_mem avail _ _ 1 a ha
    rw [hk2]
    exact getD_mem_of_lt avail _ (Nat.mod_lt _ hpos)

lemma multi_shape (env : Env) (s : AuthSwitcherState)
    (hb : s.isSystemBusy = false)
    (hn : 1 < env.availableIndices.length)
    (hmem : s.currentAuthIndex ∈ env.availableIndices) :
    switchToNextAuth env s =
      clearBusy (multiAfterLoop env { s with isSystemBusy := true }
        (scanTrials env (trialOrder env.availableIndices s.currentAuthIndex) [])) ∧
    originalStartAccount env { s with isSystemBusy := true } = some s.currentAuthIndex := by
  obtain ⟨p, hp1, hp2, hp3⟩ := jsIndexOf_of_mem env.availableIndices s.currentAuthIndex hmem
  have hcur : ({ s with isSystemBusy := true } : AuthSwitcherState).currentAuthIndex =
      s.currentAuthIndex := rfl
  have hhc : hasCurrent env { s with isSystemBusy := true } = true := by
    simp only [hasCurrent, hcur, hp1]
    have : ((p : Int) != -1) = true := by
      simp only [bne_iff_ne, ne_eq]
      intro hc
      have := Int.natCast_nonneg p
      omega
    exact this
  have hsi : startIndexOf env { s with isSystemBusy := true } = p := by
    simp only [startIndexOf, hhc, if_true, hcur, hp1]
    simp
  have horig : originalStartAccount env { s with isSystemBusy := true } =
      some s.currentAuthIndex := by
    simp only [originalStartAccount, hhc, if_true, hsi, hcur, hp3]
  refine ⟨?_, horig⟩
  have hn0 : ¬ env.availableIndices.length = 0 := by omega
  have hn1 : ¬ env.availableIndices.length = 1 := by omega
  simp only [switchToNextAuth, hn0, if_false, hb, Bool.false_eq_true, if_false,
    switchToNextAuthBody, hn1, multiAccountBranch, hsi]
  have hoff : startOffsetOf env { s with isSystemBusy := true } = 1 := by
    simp [startOffsetOf, hhc]
  have hcount : tryCountOf env { s with isSystemBusy := true } =
      env.availableIndices.length - 1 := by
    simp [tryCountOf, hhc]
  rw [hoff, hcount, multiTryLoop_eq_scan]
  have hto : trialOrder env.availableIndices s.currentAuthIndex =
      plannedTrials env.availableIndices p 1 (env.availableIndices.length - 1) := by
    rw [trialOrder, hp1]
    simp
  rw [hto]

lemma body_counter_dichotomy (env : Env) (s : AuthSwitcherState) :
    ((∃ r, (switchToNextAuthBody env s).result = Except.ok r ∧ r.success = true) ∧
       (switchToNextAuthBody env s).state.failureCount = 0 ∧
       (switchToNextAuthBody env s).state.usageCount = 0) ∨
    ((∀ r, (switchToNextAuthBody env s).result = Except.ok r → r.success = false) ∧
       (switchToNextAuthBody env s).state.failureCount = s.failureCount ∧
       (switchToNextAuthBody env s).state.usageCount = s.usageCount) := by
  by_cases h1 : env.availableIndices.length = 1
  · have hb : switchToNextAuthBody env s = singleAccountBranch env s := by
      rw [switchToNextAuthBody, if_pos h1]
    rw [hb]
    rcases hl : env.launchOrSwitchContext (env.availableIndices.getD 0 0) with _ | e
    · left
      simp only [singleAccountBranch, hl]
      exact ⟨⟨_, rfl, rfl⟩, by trivial, by trivial⟩
    · right
      simp only [singleAccountBranch, hl]
      exact ⟨fun r hr => absurd hr (by simp), by trivial, by trivial⟩
  · have hb : switchToNextAuthBody env s = multiAccountBranch env s := by
      rw [switchToNextAuthBody, if_neg h1]
    rw [hb, multiAccountBranch]
    rcases hml : multiTryLoop env env.availableIndices (startIndexOf env s)
      (startOffsetOf env s) (tryCountOf env s) [] with ⟨res, att⟩
    clear hml
    cases res with
    | ok pair =>
      rcases pair with ⟨a, f⟩
      left
      simp only [multiAfterLoop, applySwitchSuccess, resetCounters]
      exact ⟨⟨_, rfl, rfl⟩, by trivial, by trivial⟩
    | error f =>
      rcases horig : originalStartAccount env s with _ | orig
      · right
        simp only [multiAfterLoop, horig, allFailedOutcome]
        exact ⟨fun r hr => absurd hr (by simp), by trivial, by trivial⟩
      · by_cases h0 : orig = 0
        · right
          simp only [multiAfterLoop, horig, if_pos h0, allFailedOutcome]
          exact ⟨fun r hr => absurd hr (by simp), by trivial, by trivial⟩
        · rcases hsw : env.switchAccount orig with _ | e
          · left
            simp only [multiAfterLoop, horig, if_neg h0, hsw, applySwitchSuccess,
              resetCounters]
            exact ⟨⟨_, rfl, rfl⟩, by trivial, by trivial⟩
          · right
            simp only [multiAfterLoop, horig, if_neg h0, hsw, allFailedOutcome]
            exact ⟨fun r hr => absurd hr (by simp), by trivial, by trivial⟩

lemma nextAuth_counter_dichotomy (env : Env) (s : AuthSwitcherState) :
    ((∃ r, (switchToNextAuth env s).result = Except.ok r ∧ r.success = true) ∧
       (switchToNextAuth env s).state.failureCount = 0 ∧
       (switchToNextAuth env s).state.usageCount = 0) ∨
    ((∀ r, (switchToNextAuth env s).result = Except.ok r → r.success = false) ∧
       (switchToNextAuth env s).state.failureCount = s.failureCount ∧
       (switchToNextAuth env s).state.usageCount = s.usageCount) := by
  by_cases hz : env.availableIndices.length = 0
  · right
    rw [switchToNextAuth, if_pos hz]
    exact ⟨fun r hr => absurd hr (by simp), rfl, rfl⟩
  · by_cases hbusy : s.isSystemBusy = true
    · right
      rw [switchToNextAuth, if_neg hz, if_pos hbusy]
      refine ⟨?_, rfl, rfl⟩
      intro r hr
      have h := Except.ok.inj hr
      rw [← h]
    · have hw : switchToNextAuth env s =
          clearBusy (switchToNextAuthBody env { s with isSystemBusy := true }) := by
        rw [switchToNextAuth, if_neg hz, if_neg hbusy]
      rw [hw]
      rcases body_counter_dichotomy env { s with isSystemBusy := true } with
        ⟨⟨r, hr, hrs⟩, hf, hu⟩ | ⟨hall, hf, hu⟩
      · left
        exact ⟨⟨r, hr, hrs⟩, hf, hu⟩
      · right
        exact ⟨hall, hf, hu⟩

lemma triggerCond_iff (cfg : Config) (status : Int) (s1 : AuthSwitcherState) :
    triggerCond cfg status s1 = true ↔
      (status ∈ cfg.immediateSwitchStatusCodes ∨
        (0 < cfg.failureThreshold ∧ cfg.failureThreshold ≤ s1.failureCount)) := by
  simp [triggerCond]

/-- C8: next-candidate selection (`getNextAuthIndex`) is a pure function of
the candidate list and the current index: an empty list signals no
candidates (`none`); when the current index sits at position `p` of a
duplicate-free list, the result is the element at position `(p+1) mod n`
(so a one-element list returns its sole element); when the current index is
not a member, the result is the first element of the list. -/
theorem claim8_next_candidate_selection (available : List Int) (cur : Int) :
    (available = [] → getNextAuthIndex available cur = none) ∧
    (available ≠ [] → cur ∉ available →
      getNextAuthIndex available cur = some (available.getD 0 0)) ∧
    (∀ p : Nat, p < available.length → available.Nodup → available.getD p 0 = cur →
      getNextAuthIndex available cur =
        some (available.getD ((p + 1) % available.length) 0)) ∧
    (∀ a : Int, available = [a] → getNextAuthIndex available cur = some a) := by
  refine ⟨?_, ?_, ?_, ?_⟩
  · intro h
    subst h
    rfl
  · intro hne hnm
    have hlen : ¬ available.length = 0 := fun hc => hne (List.length_eq_zero.mp hc)
    rw [getNextAuthIndex, if_neg hlen, if_pos (jsIndexOf_of_not_mem available cur hnm)]
  · intro p hp hnd hgd
    have hlen : ¬ available.length = 0 := by omega
    have hj : jsIndexOf available cur = (p : Int) := jsIndexOf_of_getD available hnd p hp cur hgd
    have hj' : ¬ jsIndexOf available cur = -1 := by
      rw [hj]
      intro hc
      have := Int.natCast_nonneg p
      omega
    rw [getNextAuthIndex, if_neg hlen, if_neg hj', hj]
    simp
  · intro a ha
    subst ha
    by_cases h : a = cur
    · simp [getNextAuthIndex, jsIndexOf, h, List.getD]
    · simp [getNextAuthIndex, jsIndexOf, h, List.getD]

/-- C8 witness: on the list `[5, 7]`, the successor of member `5` is `7`,
and a non-member current index `9` selects the first element `5`. -/
theorem claim8_next_candidate_selection_witness :
    getNextAuthIndex [5, 7] 5 = some 7 ∧ getNextAuthIndex [5, 7] 9 = some 5 := by
  have h1 := claim8_next_candidate_selection [5, 7] 5
  have h2 := claim8_next_candidate_selection [5, 7] 9
  exact ⟨h1.2.2.1 0 (by decide) (by decide) (by decide), h2.2.1 (by decide) (by decide)⟩

/-- C3 (amended): when the busy flag is held, `switchToNextAuth` returns the
skip result untouched-state, no-attempt — provided the candidate list is
non-empty (with an empty list the empty-source error is thrown even while
busy, see the counterexample); `switchToSpecificAuth` skips unconditionally
while busy; and starting from an idle state, the busy flag is false again
on every exit path of both operations. -/
theorem claim3_busy_gate (env : Env) (s : AuthSwitcherState) (t : Int) :
    (s.isSystemBusy = true → env.availableIndices ≠ [] →
      switchToNextAuth env s =
        { result := Except.ok { success := false, reason := some "Switch already in progress." },
          state := s, attempts := [], fatalDiag := none }) ∧
    (s.isSystemBusy = true →
      switchToSpecificAuth env t s =
        { result := Except.ok { success := false, reason := some "Switch already in progress." },
          state := s, attempts := [], fatalDiag := none }) ∧
    (s.isSystemBusy = false →
      (switchToNextAuth env s).state.isSystemBusy = false ∧
      (switchToSpecificAuth env t s).state.isSystemBusy = false) := by
  refine ⟨?_, ?_, ?_⟩
  · intro hb hne
    have hlen : ¬ env.availableIndices.length = 0 :=
      fun hc => hne (List.length_eq_zero.mp hc)
    rw [switchToNextAuth, if_neg hlen, if_pos hb]
  · intro hb
    rw [switchToSpecificAuth, if_pos hb]
  · intro hb
    have hb' : ¬ s.isSystemBusy = true := by rw [hb]; simp
    constructor
    · by_cases hz : env.availableIndices.length = 0
      · rw [switchToNextAuth, if_pos hz]
        exact hb
      · rw [switchToNextAuth, if_neg hz, if_neg hb']
        rfl
    · rw [switchToSpecificAuth, if_neg hb']
      by_cases hc : env.availableIndices.contains t = false
      · rw [if_pos hc]
        exact hb
      · rw [if_neg hc]
        rcases hsw : env.switchAccount t with _ | e
        · rfl
        · rfl

/-- C3 counterexample: with an empty candidate list and the busy flag set,
`switchToNextAuth` throws the empty-source error instead of returning the
`Switch already in progress.` skip result, so the unconditional form of the
claim fails. -/
theorem claim3_busy_gate_counterexample :
    c3BusyState.isSystemBusy = true ∧
    (switchToNextAuth c3EmptyEnv c3BusyState).result =
      Except.error "No available authentication sources, cannot switch." ∧
    (switchToNextAuth c3EmptyEnv c3BusyState).result ≠
      Except.ok { success := false, reason := some "Switch already in progress." } := by
  refine ⟨rfl, rfl, ?_⟩
  decide

/-- C3 witness: on a non-empty candidate list, a busy switcher skips with
state untouched, and an idle switcher ends with the busy flag cleared. -/
theorem claim3_busy_gate_witness :
    c3BusyState.isSystemBusy = true ∧
    c3Env.availableIndices ≠ [] ∧
    switchToNextAuth c3Env c3BusyState =
      { result := Except.ok { success := false, reason := some "Switch already in progress." },
        state := c3BusyState, attempts := [], fatalDiag := none } ∧
    (switchToNextAuth c3Env c3IdleState).state.isSystemBusy = false := by
  have h := claim3_busy_gate c3Env c3BusyState 2
  have h2 := claim3_busy_gate c3Env c3IdleState 2
  exact ⟨rfl, by decide, h.1 rfl (by decide), (h2.2.2 rfl).1⟩

/-- C6 (amended): when the switcher is idle, a target outside the candidate
list makes `switchToSpecificAuth` fail fast with the structured
invalid-target result, with no activation attempt and no state change.
(While busy, the busy-skip reason is returned instead — the busy gate runs
before target validation; see the counterexample.) -/
theorem claim6_invalid_target (env : Env) (t : Int) (s : AuthSwitcherState)
    (hb : s.isSystemBusy = false) (ht : t ∉ env.availableIndices) :
    switchToSpecificAuth env t s =
      { result := Except.ok { success := false, reason := some (invalidTargetMessage t) },
        state := s, attempts := [], fatalDiag := none } := by
  have hb' : ¬ s.isSystemBusy = true := by rw [hb]; simp
  have hc : env.availableIndices.contains t = false := by
    cases hcc : env.availableIndices.contains t
    · rfl
    · exact absurd (by simpa using hcc) ht
  rw [switchToSpecificAuth, if_neg hb', if_pos hc]

/-- C6 counterexample: with the busy flag held, a non-member target `99`
yields the busy-skip reason `Switch already in progress.`, not the
invalid-target reason — the unconditional form of the claim fails. -/
theorem claim6_invalid_target_counterexample :
    (99 : Int) ∉ c6Env.availableIndices ∧
    (switchToSpecificAuth c6Env 99 c6BusyState).result =
      Except.ok { success := false, reason := some "Switch already in progress." } ∧
    (switchToSpecificAuth c6Env 99 c6BusyState).result ≠
      Except.ok { success := false, reason := some (invalidTargetMessage 99) } := by
  refine ⟨by decide, rfl, ?_⟩
  decide

/-- C6 witness: an idle switcher refuses the non-member target `99` with
the invalid-target result and unchanged state. -/
theorem claim6_invalid_target_witness :
    c6IdleState.isSystemBusy = false ∧
    (99 : Int) ∉ c6Env.availableIndices ∧
    switchToSpecificAuth c6Env 99 c6IdleState =
      { result := Except.ok { success := false, reason := some (invalidTargetMessage 99) },
        state := c6IdleState, attempts := [], fatalDiag := none } :=
  ⟨rfl, by decide, claim6_invalid_target c6Env 99 c6IdleState rfl (by decide)⟩

/-- C4: `handleRequestFailureAndSwitch` first increments `failureCount` by
exactly 1, and delegates to the switch orchestration exactly when the
reported status is in `immediateSwitchStatusCodes` or (`failureThreshold >
0` and the incremented count reaches the threshold); when it does not
delegate the only effect is that increment; and with `failureThreshold = 0`
and no immediate-status match no switch is ever triggered, no matter how
many failures are reported in sequence from any state. -/
theorem claim4_failure_policy (env : Env) (cfg : Config) (status : Int) (cb : Bool)
    (s : AuthSwitcherState) :
    ((handleRequestFailureAndSwitch env cfg status cb s).delegated = true ↔
      (status ∈ cfg.immediateSwitchStatusCodes ∨
        (0 < cfg.failureThreshold ∧ cfg.failureThreshold ≤ s.failureCount + 1))) ∧
    ((handleRequestFailureAndSwitch env cfg status cb s).delegated = false →
      handleRequestFailureAndSwitch env cfg status cb s =
        { state := { s with failureCount := s.failureCount + 1 }, sent := [],
          delegated := false }) ∧
    (cfg.failureThreshold = 0 → status ∉ cfg.immediateSwitchStatusCodes →
      ∀ (k : Nat) (s' : AuthSwitcherState),
        (handleIter env cfg status cb k s').2 = false) := by
  have hiff : ∀ s0 : AuthSwitcherState,
      (triggerCond cfg status (bumpFailure s0) = true ↔
        (status ∈ cfg.immediateSwitchStatusCodes ∨
          (0 < cfg.failureThreshold ∧ cfg.failureThreshold ≤ s0.failureCount + 1))) := by
    intro s0
    exact triggerCond_iff cfg status (bumpFailure s0)
  refine ⟨?_, ?_, ?_⟩
  · by_cases htr : triggerCond cfg status (bumpFailure s) = true
    · rw [handleRequestFailureAndSwitch, if_pos htr]
      simpa using (hiff s).mp htr
    · rw [handleRequestFailureAndSwitch, if_neg htr]
      simpa using fun hc => htr ((hiff s).mpr hc)
  · by_cases htr : triggerCond cfg status (bumpFailure s) = true
    · rw [handleRequestFailureAndSwitch, if_pos htr]
      intro hc
      exact absurd hc (by simp)
    · rw [handleRequestFailureAndSwitch, if_neg htr]
      intro _
      rfl
  · intro h0 himm k
    induction k with
    | zero => intro s'; rfl
    | succ n ih =>
      intro s'
      have htc : ¬ triggerCond cfg status (bumpFailure s') = true := by
        intro hc
        rcases (hiff s').mp hc with h | h
        · exact himm h
        · omega
      have hd : (handleRequestFailureAndSwitch env cfg status cb s').delegated = false := by
        rw [handleRequestFailureAndSwitch, if_neg htc]
      rw [handleIter, hd]
      simpa using ih _

/-- C4 witness: with the threshold disabled and a non-immediate status,
a single report does not delegate and five consecutive reports never
trigger a switch. -/
theorem claim4_failure_policy_witness :
    (handleRequestFailureAndSwitch c4Env c4Cfg 500 true c4State).delegated = false ∧
    (handleIter c4Env c4Cfg 500 true 5 c4State).2 = false := by
  have h := claim4_failure_policy c4Env c4Cfg 500 true c4State
  constructor
  · cases hd : (handleRequestFailureAndSwitch c4Env c4Cfg 500 true c4State).delegated
    · rfl
    · exfalso
      rcases h.1.mp hd with hc | hc
      · exact absurd hc (by decide)
      · exact absurd hc.1 (by decide)
  · exact h.2.2 (by decide) (by decide) 5 c4State

/-- C9: through every switch entry point, a successful switch resets both
counters to 0, and a skip result or a thrown error leaves both counters
unchanged — so the counters are reset together and only by a successful
switch. -/
theorem claim9_counters_reset (env : Env) (s : AuthSwitcherState) (t : Int) :
    (∀ r, (switchToNextAuth env s).result = Except.ok r → r.success = true →
      (switchToNextAuth env s).state.failureCount = 0 ∧
      (switchToNextAuth env s).state.usageCount = 0) ∧
    (∀ r, (switchToNextAuth env s).result = Except.ok r → r.success = false →
      (switchToNextAuth env s).state.failureCount = s.failureCount ∧
      (switchToNextAuth env s).state.usageCount = s.usageCount) ∧
    (∀ e, (switchToNextAuth env s).result = Except.error e →
      (switchToNextAuth env s).state.failureCount = s.failureCount ∧
      (switchToNextAuth env s).state.usageCount = s.usageCount) ∧
    (∀ r, (switchToSpecificAuth env t s).result = Except.ok r → r.success = true →
      (switchToSpecificAuth env t s).state.failureCount = 0 ∧
      (switchToSpecificAuth env t s).state.usageCount = 0) ∧
    (∀ r, (switchToSpecificAuth env t s).result = Except.ok r → r.success = false →
      (switchToSpecificAuth env t s).state.failureCount = s.failureCount ∧
      (switchToSpecificAuth env t s).state.usageCount = s.usageCount) ∧
    (∀ e, (switchToSpecificAuth env t s).result = Except.error e →
      (switchToSpecificAuth env t s).state.failureCount = s.failureCount ∧
      (switchToSpecificAuth env t s).state.usageCount = s.usageCount) := by
  have hnext := nextAuth_counter_dichotomy env s
  refine ⟨?_, ?_, ?_, ?_, ?_, ?_⟩
  · intro r hr _
    rcases hnext with ⟨_, hf, hu⟩ | ⟨hall, _, _⟩
    · exact ⟨hf, hu⟩
    · exact absurd (hall r hr) (by simp_all)
  · intro r hr hfalse
    rcases hnext with ⟨⟨r0, hr0, hs0⟩, _, _⟩ | ⟨_, hf, hu⟩
    · rw [hr0] at hr
      have : r0 = r := Except.ok.inj hr
      rw [this] at hs0
      rw [hs0] at hfalse
      exact absurd hfalse (by simp)
    · exact ⟨hf, hu⟩
  · intro e he
    rcases hnext with ⟨⟨r0, hr0, _⟩, _, _⟩ | ⟨_, hf, hu⟩
    · rw [hr0] at he
      exact absurd he (by simp)
    · exact ⟨hf, hu⟩
  all_goals
    by_cases hbusy : s.isSystemBusy = true
  case pos =>
    rw [switchToSpecificAuth, if_pos hbusy]
    intro r hr htrue
    have : ({ success := false, reason := some "Switch already in progress." }
        : SwitchResult) = r := Except.ok.inj hr
    rw [← this] at htrue
    exact absurd htrue (by simp)
  case neg =>
    rw [switchToSpecificAuth, if_neg hbusy]
    by_cases hc : env.availableIndices.contains t = false
    · rw [if_pos hc]
      intro r hr htrue
      have : ({ success := false, reason := some (invalidTargetMessage t) }
          : SwitchResult) = r := Except.ok.inj hr
      rw [← this] at htrue
      exact absurd htrue (by simp)
    · rw [if_neg hc]
      rcases hsw : env.switchAccount t with _ | e
      · intro r _ _
        exact ⟨rfl, rfl⟩
      · intro r hr _
        exact absurd hr (by simp)
  case pos =>
    rw [switchToSpecificAuth, if_pos hbusy]
    intro r _ _
    exact ⟨rfl, rfl⟩
  case neg =>
    rw [switchToSpecificAuth, if_neg hbusy]
    by_cases hc : env.availableIndices.contains t = false
    · rw [if_pos hc]
      intro r _ _
      exact ⟨rfl, rfl⟩
    · rw [if_neg hc]
      rcases hsw : env.switchAccount t with _ | e
      · intro r hr hfalse
        have : ({ newIndex := some t, success := true } : SwitchResult) = r :=
          Except.ok.inj hr
        rw [← this] at hfalse
        exact absurd hfalse (by simp)
      · intro r hr _
        exact absurd hr (by simp)
  case pos =>
    rw [switchToSpecificAuth, if_pos hbusy]
    intro e he
    exact absurd he (by simp)
  case neg =>
    rw [switchToSpecificAuth, if_neg hbusy]
    by_cases hc : env.availableIndices.contains t = false
    · rw [if_pos hc]
      intro e he
      exact absurd he (by simp)
    · rw [if_neg hc]
      rcases hsw : env.switchAccount t with _ | e
      · intro e he
        exact absurd he (by simp)
      · intro e _
        exact ⟨rfl, rfl⟩

/-- C9 witness: on a fully healthy environment, both the next-candidate
orchestration and the direct switch succeed and leave both counters at 0. -/
theorem claim9_counters_reset_witness :
    ((switchToNextAuth c9Env c9State).state.failureCount = 0 ∧
      (switchToNextAuth c9Env c9State).state.usageCount = 0) ∧
    ((switchToSpecificAuth c9Env 2 c9State).state.failureCount = 0 ∧
      (switchToSpecificAuth c9Env 2 c9State).state.usageCount = 0) := by
  have h := claim9_counters_reset c9Env c9State 2
  exact ⟨h.1 { failedAccounts := some [], newIndex := some 2, success := true } rfl rfl,
    h.2.2.2.1 { newIndex := some 2, success := true } rfl rfl⟩

/-- C5: at the failure-policy boundary, whatever the delegated orchestration
does — throw any error, return a skip, or succeed — the outcome is
converted into a single notification message and the operation returns
normally (the embedding of `handleRequestFailureAndSwitch` is a total
function with no error channel: nothing re-raises to the caller). -/
theorem claim5_error_containment (env : Env) (cfg : Config) (status : Int)
    (s : AuthSwitcherState)
    (ht : status ∈ cfg.immediateSwitchStatusCodes ∨
      (0 < cfg.failureThreshold ∧ cfg.failureThreshold ≤ s.failureCount + 1)) :
    (∀ e, (switchToNextAuth env (bumpFailure s)).result = Except.error e →
      (handleRequestFailureAndSwitch env cfg status true s).sent =
        [classifyErrorMessage e
          (switchToNextAuth env (bumpFailure s)).state.currentAuthIndex]) ∧
    (∀ r, (switchToNextAuth env (bumpFailure s)).result = Except.ok r → r.success = false →
      (handleRequestFailureAndSwitch env cfg status true s).sent =
        ["⚠️ Account switch skipped: " ++ r.reason.getD ""]) ∧
    (∀ r, (switchToNextAuth env (bumpFailure s)).result = Except.ok r → r.success = true →
      (handleRequestFailureAndSwitch env cfg status true s).sent =
        ["🔄 Target account invalid, automatically fell back to account #" ++
          toString (switchToNextAuth env (bumpFailure s)).state.currentAuthIndex ++ "."]) := by
  have htr : triggerCond cfg status (bumpFailure s) = true :=
    (triggerCond_iff cfg status (bumpFailure s)).mpr ht
  refine ⟨?_, ?_, ?_⟩
  · intro e he
    rw [handleRequestFailureAndSwitch, if_pos htr]
    show (handleDelegate env true (bumpFailure s)).2 = _
    rw [handleDelegate]
    simp [he, sendIf]
  · intro r hr hfalse
    rw [handleRequestFailureAndSwitch, if_pos htr]
    show (handleDelegate env true (bumpFailure s)).2 = _
    rw [handleDelegate]
    simp [hr, hfalse, sendIf]
  · intro r hr htrue
    rw [handleRequestFailureAndSwitch, if_pos htr]
    show (handleDelegate env true (bumpFailure s)).2 = _
    rw [handleDelegate]
    simp only [hr, htrue, sendIf]
    rfl

/-- C5 witness: a single-account environment whose restart is rejected with
`boom` makes the failure handler return normally with the unknown-error
notification. -/
theorem claim5_error_containment_witness :
    (429 : Int) ∈ c5Cfg.immediateSwitchStatusCodes ∧
    (handleRequestFailureAndSwitch c5Env c5Cfg 429 true c5State).sent =
      ["❌ Fatal error: Unknown switching error occurred: boom"] := by
  have h := claim5_error_containment c5Env c5Cfg 429 c5State (Or.inl (by decide))
  exact ⟨by decide, h.1 "boom" rfl⟩

/-- C7: when the orchestration invoked by the failure handler fails because
only one candidate exists — the single-candidate restart was rejected and,
as modelled from the spec, the rejection message indicates that only one
account is available — the failure handler resets `failureCount` to 0
before returning. -/
theorem claim7_single_account_reset (env : Env) (cfg : Config) (status : Int) (cb : Bool)
    (s : AuthSwitcherState) (a : Int) (m : String)
    (hs : env.availableIndices = [a])
    (hr : env.launchOrSwitchContext a = some m)
    (hm : indicatesOnlyOneAccount m = true)
    (hb : s.isSystemBusy = false)
    (ht : status ∈ cfg.immediateSwitchStatusCodes ∨
      (0 < cfg.failureThreshold ∧ cfg.failureThreshold ≤ s.failureCount + 1)) :
    (handleRequestFailureAndSwitch env cfg status cb s).state.failureCount = 0 := by
  have htr : triggerCond cfg status (bumpFailure s) = true :=
    (triggerCond_iff cfg status (bumpFailure s)).mpr ht
  have hlen1 : env.availableIndices.length = 1 := by rw [hs]; rfl
  have hlen0 : ¬ env.availableIndices.length = 0 := by omega
  have hb' : ¬ (bumpFailure s).isSystemBusy = true := by
    show ¬ s.isSystemBusy = true
    rw [hb]; simp
  have hgd : env.availableIndices.getD 0 0 = a := by rw [hs]; rfl
  have hres : (switchToNextAuth env (bumpFailure s)).result = Except.error m := by
    rw [switchToNextAuth, if_neg hlen0, if_neg hb', clearBusy]
    show (switchToNextAuthBody env _).result = _
    rw [switchToNextAuthBody, if_pos hlen1]
    simp only [singleAccountBranch, hgd, hr]
  rw [handleRequestFailureAndSwitch, if_pos htr]
  show (handleDelegate env cb (bumpFailure s)).1.failureCount = 0
  rw [handleDelegate]
  simp only [hres]
  rw [if_pos (show includesSubstr m "Only one account is available" = true from hm)]

/-- C7 witness: a lone account `7` whose restart is rejected with a message
containing `Only one account is available` makes the failure handler leave
`failureCount` at 0 (it was 5 before the call). -/
theorem claim7_single_account_reset_witness :
    c7State.failureCount = 5 ∧
    (handleRequestFailureAndSwitch c7Env c7Cfg 401 true c7State).state.failureCount = 0 :=
  ⟨rfl, claim7_single_account_reset c7Env c7Cfg 401 true c7State 7
    "Only one account is available, cannot switch" rfl rfl (by decide) rfl
    (Or.inl (by decide))⟩

/-- C10: when a triggered switch throws an error whose message does not
contain `Only one account is available`, the incremented `failureCount` is
retained on the failure path; consequently, once `failureCount` has reached
a positive threshold every subsequent reported failure delegates to the
orchestration again. -/
theorem claim10_failure_count_retained (env : Env) (cfg : Config) (status : Int) (cb : Bool)
    (s : AuthSwitcherState) (e : String)
    (ht : status ∈ cfg.immediateSwitchStatusCodes ∨
      (0 < cfg.failureThreshold ∧ cfg.failureThreshold ≤ s.failureCount + 1))
    (he : (switchToNextAuth env (bumpFailure s)).result = Except.error e)
    (hm : includesSubstr e "Only one account is available" = false) :
    (handleRequestFailureAndSwitch env cfg status cb s).state.failureCount =
      s.failureCount + 1 ∧
    (∀ s' : AuthSwitcherState, 0 < cfg.failureThreshold →
      cfg.failureThreshold ≤ s'.failureCount →
      (handleRequestFailureAndSwitch env cfg status cb s').delegated = true) := by
  have htr : triggerCond cfg status (bumpFailure s) = true :=
    (triggerCond_iff cfg status (bumpFailure s)).mpr ht
  constructor
  · have hm' : ¬ includesSubstr e "Only one account is available" = true := by
      rw [hm]; simp
    have hkeep : (switchToNextAuth env (bumpFailure s)).state.failureCount =
        s.failureCount + 1 := by
      rcases nextAuth_counter_dichotomy env (bumpFailure s) with
        ⟨⟨r0, hr0, _⟩, _, _⟩ | ⟨_, hf, _⟩
      · rw [he] at hr0
        exact absurd hr0 (by simp)
      · exact hf
    rw [handleRequestFailureAndSwitch, if_pos htr]
    show (handleDelegate env cb (bumpFailure s)).1.failureCount = _
    rw [handleDelegate]
    simp only [he]
    rw [if_neg hm']
    exact hkeep
  · intro s' h1 h2
    have htr' : triggerCond cfg status (bumpFailure s') = true :=
      (triggerCond_iff cfg status (bumpFailure s')).mpr
        (Or.inr ⟨h1, by show cfg.failureThreshold ≤ s'.failureCount + 1; omega⟩)
    rw [handleRequestFailureAndSwitch, if_pos htr']

/-- C10 witness: with threshold 2 and five prior failures, a report drives a
full orchestration that fails for all three accounts; the count becomes 6
and the very next report delegates again. -/
theorem claim10_failure_count_retained_witness :
    (handleRequestFailureAndSwitch c10Env c10Cfg 500 true c10State).state.failureCount = 6 ∧
    (handleRequestFailureAndSwitch c10Env c10Cfg 500 true c10State).delegated = true := by
  have h := claim10_failure_count_retained c10Env c10Cfg 500 true c10State
    (allFailedMessage 3)
    (Or.inr ⟨by decide, by decide⟩) rfl (by decide)
  exact ⟨h.1, h.2 c10State (by decide) (by decide)⟩

/-- C1: for a candidate list of size `> 1` containing the current index
(candidate identifiers are duplicate-free and distinct from the unset
sentinel `0`, modelled from the spec for the external candidate source),
the orchestration attempts candidates strictly in the trial order that
walks forward from the current position with wraparound: the order has the
other `n-1` candidates and never the original; position `k` of the order is
the element at list position `(p+1+k) mod n`; if the first success is at
position `j` the result is `success` with that candidate as `newIndex` and
the previously failed candidates, in order, as `failedAccounts`, and
exactly the first `j+1` trial candidates were attempted; and if every trial
candidate fails, the original is attempted exactly once, after all the
others, as the final attempt — succeeding there yields `newIndex` equal to
the original with all other candidates in `failedAccounts`. -/
theorem claim1_trial_order (env : Env) (s : AuthSwitcherState)
    (hb : s.isSystemBusy = false)
    (hn : 1 < env.availableIndices.length)
    (hmem : s.currentAuthIndex ∈ env.availableIndices)
    (hnz : s.currentAuthIndex ≠ 0)
    (hnd : env.availableIndices.Nodup) :
    (trialOrder env.availableIndices s.currentAuthIndex).length =
      env.availableIndices.length - 1 ∧
    (∀ k, k < env.availableIndices.length - 1 →
      (trialOrder env.availableIndices s.currentAuthIndex).getD k 0 =
        env.availableIndices.getD
          (((jsIndexOf env.availableIndices s.currentAuthIndex).toNat + 1 + k) %
            env.availableIndices.length) 0) ∧
    s.currentAuthIndex ∉ trialOrder env.availableIndices s.currentAuthIndex ∧
    (∀ j, j < (trialOrder env.availableIndices s.currentAuthIndex).length →
      (∀ k, k < j → (env.switchAccount
          ((trialOrder env.availableIndices s.currentAuthIndex).getD k 0)).isSome = true) →
      env.switchAccount
          ((trialOrder env.availableIndices s.currentAuthIndex).getD j 0) = none →
      (switchToNextAuth env s).result = Except.ok
        { failedAccounts :=
            some ((trialOrder env.availableIndices s.currentAuthIndex).take j),
          newIndex := some ((trialOrder env.availableIndices s.currentAuthIndex).getD j 0),
          success := true } ∧
      (switchToNextAuth env s).attempts =
        ((trialOrder env.availableIndices s.currentAuthIndex).take (j + 1)).map
          Attempt.switchAcc) ∧
    ((∀ a ∈ trialOrder env.availableIndices s.currentAuthIndex,
        (env.switchAccount a).isSome = true) →
      (switchToNextAuth env s).attempts =
        (trialOrder env.availableIndices s.currentAuthIndex ++ [s.currentAuthIndex]).map
          Attempt.switchAcc ∧
      (env.switchAccount s.currentAuthIndex = none →
        (switchToNextAuth env s).result = Except.ok
          { failedAccounts := some (trialOrder env.availableIndices s.currentAuthIndex),
            finalAttempt := some true,
            newIndex := some s.currentAuthIndex, success := true })) := by
  obtain ⟨hshape, horig⟩ := multi_shape env s hb hn hmem
  obtain ⟨hlen, hgetD, hnotmem, hsub⟩ :=
    trialOrder_spec env.availableIndices s.currentAuthIndex hmem hn
  refine ⟨hlen, hgetD, hnotmem hnd, ?_, ?_⟩
  · intro j hj hfk hsj
    have hscan := scan_first_success env
      (trialOrder env.availableIndices s.currentAuthIndex) j [] hj hfk hsj
    rw [hshape, hscan]
    simp only [multiAfterLoop, clearBusy, List.nil_append]
    exact ⟨by trivial, by trivial⟩
  · intro hallord
    have hscan := scan_all_fail env
      (trialOrder env.availableIndices s.currentAuthIndex) [] hallord
    rw [hshape, hscan]
    constructor
    · rcases hsw : env.switchAccount s.currentAuthIndex with _ | e
      · simp only [multiAfterLoop, horig, if_neg hnz, hsw, clearBusy, List.nil_append]
      · simp only [multiAfterLoop, horig, if_neg hnz, hsw, allFailedOutcome, clearBusy,
          List.nil_append]
    · intro hfin
      simp only [multiAfterLoop, horig, if_neg hnz, hfin, clearBusy, List.nil_append]

/-- C1 witness: candidates `[1,2,3]`, current `1`, switching to `2` fails
and to `3` succeeds: the result is success with `newIndex = 3` and
`failedAccounts = [2]`, exactly `2` then `3` were attempted, and the
original `1` is not in the trial order (it is never attempted before the
others). -/
theorem claim1_trial_order_witness :
    (switchToNextAuth c1Env c1State).result = Except.ok
      { failedAccounts := some [2], newIndex := some 3, success := true } ∧
    (switchToNextAuth c1Env c1State).attempts =
      [Attempt.switchAcc 2, Attempt.switchAcc 3] ∧
    c1State.currentAuthIndex ∉ trialOrder c1Env.availableIndices c1State.currentAuthIndex := by
  have h := claim1_trial_order c1Env c1State rfl (by decide) (by decide) (by decide)
    (by decide)
  obtain ⟨h1, h2, h3, h4, h5⟩ := h
  obtain ⟨hr, ha⟩ := h4 1 (by decide)
    (fun k hk => by
      have hk0 : k = 0 := by omega
      subst hk0
      decide)
    (by decide)
  exact ⟨hr, ha, h3⟩

/-- C2: for a candidate list of size `> 1` containing the current index
(identifiers distinct from the sentinel `0`, modelled from the spec), when
the activation of every candidate fails the orchestration resets the current
index to the unset sentinel `0` and throws the all-accounts-failed error
whose message carries the total candidate count, after attempting the
trial order and then the original exactly once (original last); the fatal
diagnostic carries the total count and the complete ordered failed-accounts
list with the original last. -/
theorem claim2_all_candidates_failed (env : Env) (s : AuthSwitcherState)
    (hb : s.isSystemBusy = false)
    (hn : 1 < env.availableIndices.length)
    (hmem : s.currentAuthIndex ∈ env.availableIndices)
    (hnz : s.currentAuthIndex ≠ 0)
    (hall : ∀ a ∈ env.availableIndices, (env.switchAccount a).isSome = true) :
    (switchToNextAuth env s).result =
      Except.error (allFailedMessage env.availableIndices.length) ∧
    (switchToNextAuth env s).state.currentAuthIndex = 0 ∧
    (switchToNextAuth env s).fatalDiag =
      some (env.availableIndices.length,
        trialOrder env.availableIndices s.currentAuthIndex ++ [s.currentAuthIndex]) ∧
    (switchToNextAuth env s).attempts =
      (trialOrder env.availableIndices s.currentAuthIndex ++ [s.currentAuthIndex]).map
        Attempt.switchAcc := by
  obtain ⟨hshape, horig⟩ := multi_shape env s hb hn hmem
  obtain ⟨hlen, hgetD, hnotmem, hsub⟩ :=
    trialOrder_spec env.availableIndices s.currentAuthIndex hmem hn
  have hallord : ∀ a ∈ trialOrder env.availableIndices s.currentAuthIndex,
      (env.switchAccount a).isSome = true := fun a ha => hall a (hsub a ha)
  have hscan := scan_all_fail env
    (trialOrder env.availableIndices s.currentAuthIndex) [] hallord
  have hcur : (env.switchAccount s.currentAuthIndex).isSome = true :=
    hall s.currentAuthIndex hmem
  rcases hsw : env.switchAccount s.currentAuthIndex with _ | e
  · rw [hsw] at hcur
    simp at hcur
  · rw [hshape, hscan]
    simp only [multiAfterLoop, horig, if_neg hnz, hsw, allFailedOutcome, clearBusy,
      List.nil_append]
    exact ⟨by trivial, by trivial, by trivial, by trivial⟩

/-- C2 witness: candidates `[1,2,3]`, current `1`, every activation fails:
the call throws the all-accounts-failed error for 3 accounts, the current
index is reset to the sentinel `0`, and the fatal diagnostic carries
`failedAccounts = [2, 3, 1]` — attempt order with the original last. -/
theorem claim2_all_candidates_failed_witness :
    (switchToNextAuth c2Env c2State).result =
      Except.error "All 3 available accounts failed to initialize (including final retry)." ∧
    (switchToNextAuth c2Env c2State).state.currentAuthIndex = 0 ∧
    (switchToNextAuth c2Env c2State).fatalDiag = some (3, [2, 3, 1]) := by
  have h := claim2_all_candidates_failed c2Env c2State rfl (by decide) (by decide)
    (by decide) (by decide)
  exact ⟨h.1, h.2.1, h.2.2.1⟩

end AuthSwitcher
